import Mathlib

/-!
Shallow embedding of `stardust_camera_client` (src/main.rs): the frame-bridge
between a remote compositor shared-texture swapchain and a local window
swapchain.  The tick loop `stardust_loop`, the winit application handler
`WinitApp`, and the material publication are modelled as pure functions; each
iteration of the tick loop is rendered as the ordered list of the operations it
performs, so that ordering and side-effect claims become statements about that
list.
-/

/-- The semaphores appearing in one tick of `stardust_loop`:
`remoteWait` and `remoteRelease` are the wait/release semaphores handed to the
`cme_info.submit` callback by the remote library; `wayAcquire` is
`way_acquire_sema` (signalled by local swapchain acquisition); `wayRelease` is
`way_release_sema` (the bridge-owned copy-done semaphore, signalled by the copy
submission and waited on by present). -/
inductive Sema where
  | remoteWait
  | wayAcquire
  | remoteRelease
  | wayRelease
deriving DecidableEq, Repr

/-- `SubmitDescriptor` returned by `cme_info.submit` (the value bound to
`submit_info` in `stardust_loop`): the shared image id and its acquire/release
sync points. -/
structure SubmitDescriptor where
  dmatex_id : Nat
  acquire_point : Nat
  release_point : Nat
deriving DecidableEq, Repr

/-- `DmatexSubmitInfo`, the texture descriptor published as the value of the
material parameter "diffuse". -/
structure DmatexSubmitInfo where
  dmatex_id : Nat
  acquire_point : Nat
  release_point : Nat
deriving DecidableEq, Repr

/-- `DmatexSize` as used for the shared-texture swapchain creation request. -/
inductive DmatexSize where
  | Dim2D : Nat × Nat → DmatexSize
deriving DecidableEq, Repr

/-- The `Output` struct: the live pair of local vulkano swapchain and remote
cme swapchain for the current window.  `swapchainExtent` is the
`image_extent` of the local swapchain, `swapImages` the length of
`swap_images`, `cmeSize` the `DmatexSize` the cme `Swapchain::new` call was
given. -/
structure Output where
  swapchainExtent : Nat × Nat
  swapImages : Nat
  cmeSize : DmatexSize
deriving DecidableEq, Repr

/-- Observable operations performed by one iteration of `stardust_loop`, in
program order. -/
inductive Op where
  | lockAcquire
  | lockRelease
  | createCommandBufferBuilder
  | createSemaphore (s : Sema)
  | prepareNextImage
  | acquireNextImage (s : Sema)
  | recordBlit
  | buildCommandBuffer
  | queueSubmit (waits : List Sema) (signals : List Sema)
  | present (waits : List Sema) (imageIndex : Nat)
  | waitIdle
  | pingAck
  | publishMaterial (m : DmatexSubmitInfo)
  | requestDraw (d : SubmitDescriptor)
deriving DecidableEq, Repr

instance : Inhabited Op := ⟨Op.waitIdle⟩

/-- The root events `stardust_loop` can receive from `recv_root_event`
(`None` models a spurious wakeup with no event). -/
inductive RootEvent where
  | Ping
  | SaveState
  | Frame
deriving DecidableEq, Repr

/-- Errors a Vulkan call can report. -/
inductive VkError where
  | outOfDate
  | deviceLost
deriving DecidableEq, Repr

/-- What a successful `acquire_next_image` returns (`way_info`): the index of
the acquired local swapchain image. -/
structure AcquireInfo where
  imageIndex : Nat
deriving DecidableEq, Repr

/-- The descriptor published to the material (src/main.rs lines 224-233): the
`DmatexSubmitInfo` built from `submit_info`, with `acquire_point` set from
`submit_info.release_point` and `release_point` set from
`submit_info.release_point`. -/
def published_submit_info (s : SubmitDescriptor) : DmatexSubmitInfo :=
  { dmatex_id := s.dmatex_id
    acquire_point := s.release_point
    release_point := s.release_point }

/-- The operation list of a render tick that runs to completion, in the order
of src/main.rs lines 159-243: lock the output mutex, create the command-buffer
builder, create the two local semaphores, prepare the next remote image,
acquire the next local image (signalling `way_acquire_sema`), record the blit,
build the command buffer, submit (waiting on the remote wait semaphore and
`way_acquire_sema`, signalling the remote release semaphore and
`way_release_sema`), present (waiting on `way_release_sema`), wait for queue
idle, publish the material parameter, request a draw, and finally drop the
mutex guard at the end of the loop body. -/
def render_trace (desc : SubmitDescriptor) (idx : Nat) : List Op :=
  [Op.lockAcquire,
   Op.createCommandBufferBuilder,
   Op.createSemaphore Sema.wayAcquire,
   Op.createSemaphore Sema.wayRelease,
   Op.prepareNextImage,
   Op.acquireNextImage Sema.wayAcquire,
   Op.recordBlit,
   Op.buildCommandBuffer,
   Op.queueSubmit [Sema.remoteWait, Sema.wayAcquire] [Sema.remoteRelease, Sema.wayRelease],
   Op.present [Sema.wayRelease] idx,
   Op.waitIdle,
   Op.publishMaterial (published_submit_info desc),
   Op.requestDraw desc,
   Op.lockRelease]

/-- One iteration of the `loop` body of `stardust_loop`, after `event.wait()`
returns.  Inputs that the environment supplies during the iteration:
the received root event, the snapshot of the shared `Output`, the
`SubmitDescriptor` the remote `submit` returns, the result of
`acquire_next_image`, and the result value the `present` call's `unwrap` sees.
The result is the list of operations performed and, when some fallible call
returned an error that the code `unwrap`s, the panic message (the iteration
then dies and the loop makes no further progress). -/
def stardust_tick (ev : Option RootEvent) (outputState : Option Output)
    (desc : SubmitDescriptor) (acq : Except VkError AcquireInfo)
    (presentResult : Except VkError Bool) : List Op × Option String :=
  match ev with
  | some RootEvent.Ping => ([Op.pingAck], none)
  | some RootEvent.SaveState => ([], none)
  | none => ([], none)
  | some RootEvent.Frame =>
    match outputState with
    | none => ([Op.lockAcquire, Op.lockRelease], none)
    | some out =>
      let pre : List Op :=
        [Op.lockAcquire,
         Op.createCommandBufferBuilder,
         Op.createSemaphore Sema.wayAcquire,
         Op.createSemaphore Sema.wayRelease,
         Op.prepareNextImage]
      match acq with
      | Except.error _ =>
          (pre, some "panic: acquire_next_image returned Err and was unwrapped")
      | Except.ok info =>
        if info.imageIndex < out.swapImages then
          match presentResult with
          | Except.error _ =>
              (pre ++
               [Op.acquireNextImage Sema.wayAcquire,
                Op.recordBlit,
                Op.buildCommandBuffer,
                Op.queueSubmit [Sema.remoteWait, Sema.wayAcquire]
                  [Sema.remoteRelease, Sema.wayRelease],
                Op.present [Sema.wayRelease] info.imageIndex],
               some "panic: present returned Err and was unwrapped")
          | Except.ok _ => (render_trace desc info.imageIndex, none)
        else
          (pre ++ [Op.acquireNextImage Sema.wayAcquire],
           some "panic: index out of bounds in swap_images")

/-- One tick's environment inputs, for multi-tick runs. -/
structure TickInput where
  ev : Option RootEvent
  outputState : Option Output
  desc : SubmitDescriptor
  acq : Except VkError AcquireInfo
  presentResult : Except VkError Bool

/-- A run of the tick loop over a list of per-tick environment inputs: the
concatenation of the iterations' operations.  A panic kills the loop task, so
nothing follows it. -/
def stardust_run : List TickInput → List Op
  | [] => []
  | i :: rest =>
    (stardust_tick i.ev i.outputState i.desc i.acq i.presentResult).1 ++
    (match (stardust_tick i.ev i.outputState i.desc i.acq i.presentResult).2 with
     | none => stardust_run rest
     | some _ => [])

/-- The state of `WinitApp` that the claims concern: the shared `Output` slot
and whether the event loop was asked to exit. -/
structure AppState where
  output : Option Output
  exited : Bool
deriving DecidableEq, Repr

/-- The winit window events handled by `WinitApp::window_event`. -/
inductive WindowEvent where
  | Resized (size : Nat × Nat)
  | CloseRequested
  | Destroyed
  | RedrawRequested
deriving DecidableEq, Repr

/-- `WinitApp::window_event` (src/main.rs lines 323-340): the `Resized` and
`RedrawRequested` arms do nothing; `CloseRequested` and `Destroyed` exit the
event loop. -/
def window_event (s : AppState) (e : WindowEvent) : AppState :=
  match e with
  | WindowEvent.Resized _ => s
  | WindowEvent.CloseRequested => { s with exited := true }
  | WindowEvent.Destroyed => { s with exited := true }
  | WindowEvent.RedrawRequested => s

/-- `WinitApp::resumed` (src/main.rs lines 261-321): creates a window, a local
swapchain with `image_extent` equal to the window's inner size, a cme
swapchain with size `DmatexSize::Dim2D(window_size)`, and replaces the shared
`Output` wholesale.  `windowSize` is the window's inner size, `numImages` the
number of images the swapchain creation yields. -/
def resumed (s : AppState) (windowSize : Nat × Nat) (numImages : Nat) : AppState :=
  { s with
    output := some
      { swapchainExtent := windowSize
        swapImages := numImages
        cmeSize := DmatexSize.Dim2D windowSize } }

/-- The payload of the first `publishMaterial` operation in a trace, if any. -/
def publishedFirst : List Op → Option DmatexSubmitInfo
  | [] => none
  | Op.publishMaterial m :: _ => some m
  | _ :: rest => publishedFirst rest

/-- Whether an operation is a queue submission. -/
def isSubmit : Op → Bool
  | Op.queueSubmit _ _ => true
  | _ => false

/-- Whether an operation is a local swapchain image acquisition. -/
def isAcquire : Op → Bool
  | Op.acquireNextImage _ => true
  | _ => false

/-- Whether an operation is a present. -/
def isPresent : Op → Bool
  | Op.present _ _ => true
  | _ => false

/-- Whether an operation touches GPU/swapchain state (anything other than the
mutex, the ping acknowledgement, and the scene-graph messages). -/
def isGpuOp : Op → Bool
  | Op.lockAcquire => false
  | Op.lockRelease => false
  | Op.pingAck => false
  | Op.publishMaterial _ => false
  | Op.requestDraw _ => false
  | _ => true

/-- Concrete `Output` used to evaluate the embedding. -/
def exampleOutput : Output :=
  { swapchainExtent := (512, 512)
    swapImages := 2
    cmeSize := DmatexSize.Dim2D (512, 512) }

/-- Concrete `SubmitDescriptor` with distinct acquire and release points. -/
def exampleDesc : SubmitDescriptor :=
  { dmatex_id := 7, acquire_point := 1, release_point := 2 }

/-- If a list splits into a prefix with no queue submission and a suffix with
no local acquisition, then no acquisition occurs strictly after a submission
in it. -/
theorem no_acquire_after_submit_of_split (t u v : List Op) (ht : t = u ++ v)
    (hu : ∀ op ∈ u, isSubmit op = false)
    (hv : ∀ op ∈ v, isAcquire op = false)
    (i j : Nat) (hij : i < j) (w s : List Sema) (a : Sema)
    (hs : t[i]? = some (Op.queueSubmit w s))
    (ha : t[j]? = some (Op.acquireNextImage a)) : False := by
  subst ht
  by_cases hiu : i < u.length
  · rw [List.getElem?_append_left hiu] at hs
    have := hu _ (List.getElem?_mem hs)
    simp [isSubmit] at this
  · push_neg at hiu
    have hju : u.length ≤ j := le_trans hiu (le_of_lt hij)
    rw [List.getElem?_append_right hju] at ha
    have := hv _ (List.getElem?_mem ha)
    simp [isAcquire] at this

/-- If a list splits into a prefix `u` followed by `Op.waitIdle :: v` and the
suffix starting at `u` has no queue submission beyond the prefix, then every
queue submission in the list is followed by a later `waitIdle`. -/
theorem waitIdle_after_submit_of_split (t u v : List Op)
    (ht : t = u ++ Op.waitIdle :: v)
    (hu : ∀ op ∈ Op.waitIdle :: v, isSubmit op = false)
    (i : Nat) (w s : List Sema)
    (hs : t[i]? = some (Op.queueSubmit w s)) :
    ∃ k, i < k ∧ t[k]? = some Op.waitIdle := by
  subst ht
  by_cases hiu : i < u.length
  · refine ⟨u.length, hiu, ?_⟩
    rw [List.getElem?_append_right (le_refl u.length)]
    simp
  · push_neg at hiu
    rw [List.getElem?_append_right hiu] at hs
    have := hu _ (List.getElem?_mem hs)
    simp [isSubmit] at this

/-- Within one tick-loop iteration, no local image acquisition ever occurs
strictly after a queue submission: acquisition always comes first. -/
theorem tick_no_acquire_after_submit
    (ev : Option RootEvent) (outputState : Option Output) (desc : SubmitDescriptor)
    (acq : Except VkError AcquireInfo) (pres : Except VkError Bool)
    (i j : Nat) (hij : i < j) (w s : List Sema) (a : Sema)
    (hs : (stardust_tick ev outputState desc acq pres).1[i]? = some (Op.queueSubmit w s))
    (ha : (stardust_tick ev outputState desc acq pres).1[j]?
            = some (Op.acquireNextImage a)) : False := by
  rcases ev with _ | (_ | _ | _)
  · simp [stardust_tick] at hs
  · have hm := List.getElem?_mem hs
    simp [stardust_tick] at hm
  · simp [stardust_tick] at hs
  · rcases outputState with _ | out
    · have hm := List.getElem?_mem hs
      simp [stardust_tick] at hm
    · rcases acq with e | info
      · have hm := List.getElem?_mem hs
        simp [stardust_tick] at hm
      · by_cases hlt : info.imageIndex < out.swapImages
        · rcases pres with e | b
          · refine no_acquire_after_submit_of_split
              (stardust_tick (some RootEvent.Frame) (some out) desc
                (Except.ok info) (Except.error e)).1
              [Op.lockAcquire, Op.createCommandBufferBuilder,
               Op.createSemaphore Sema.wayAcquire, Op.createSemaphore Sema.wayRelease,
               Op.prepareNextImage, Op.acquireNextImage Sema.wayAcquire]
              [Op.recordBlit, Op.buildCommandBuffer,
               Op.queueSubmit [Sema.remoteWait, Sema.wayAcquire]
                 [Sema.remoteRelease, Sema.wayRelease],
               Op.present [Sema.wayRelease] info.imageIndex]
              ?_ ?_ ?_ i j hij w s a hs ha
            · simp [stardust_tick, hlt]
            · intro op hop
              simp at hop
              rcases hop with rfl | rfl | rfl | rfl | rfl | rfl <;> rfl
            · intro op hop
              simp at hop
              rcases hop with rfl | rfl | rfl | rfl <;> rfl
          · refine no_acquire_after_submit_of_split
              (stardust_tick (some RootEvent.Frame) (some out) desc
                (Except.ok info) (Except.ok b)).1
              [Op.lockAcquire, Op.createCommandBufferBuilder,
               Op.createSemaphore Sema.wayAcquire, Op.createSemaphore Sema.wayRelease,
               Op.prepareNextImage, Op.acquireNextImage Sema.wayAcquire]
              [Op.recordBlit, Op.buildCommandBuffer,
               Op.queueSubmit [Sema.remoteWait, Sema.wayAcquire]
                 [Sema.remoteRelease, Sema.wayRelease],
               Op.present [Sema.wayRelease] info.imageIndex, Op.waitIdle,
               Op.publishMaterial (published_submit_info desc),
               Op.requestDraw desc, Op.lockRelease]
              ?_ ?_ ?_ i j hij w s a hs ha
            · simp [stardust_tick, hlt, render_trace]
            · intro op hop
              simp at hop
              rcases hop with rfl | rfl | rfl | rfl | rfl | rfl <;> rfl
            · intro op hop
              simp at hop
              rcases hop with rfl | rfl | rfl | rfl | rfl | rfl | rfl | rfl <;> rfl
        · have hm := List.getElem?_mem hs
          simp [stardust_tick, hlt] at hm

/-- Within one tick-loop iteration that completes without panicking, every
queue submission is followed later in the same iteration by a blocking
`wait_idle` on the queue. -/
theorem tick_waitIdle_after_submit
    (ev : Option RootEvent) (outputState : Option Output) (desc : SubmitDescriptor)
    (acq : Except VkError AcquireInfo) (pres : Except VkError Bool)
    (hdone : (stardust_tick ev outputState desc acq pres).2 = none)
    (i : Nat) (w s : List Sema)
    (hs : (stardust_tick ev outputState desc acq pres).1[i]? = some (Op.queueSubmit w s)) :
    ∃ k, i < k ∧ (stardust_tick ev outputState desc acq pres).1[k]? = some Op.waitIdle := by
  rcases ev with _ | (_ | _ | _)
  · simp [stardust_tick] at hs
  · have hm := List.getElem?_mem hs
    simp [stardust_tick] at hm
  · simp [stardust_tick] at hs
  · rcases outputState with _ | out
    · have hm := List.getElem?_mem hs
      simp [stardust_tick] at hm
    · rcases acq with e | info
      · simp [stardust_tick] at hdone
      · by_cases hlt : info.imageIndex < out.swapImages
        · rcases pres with e | b
          · simp [stardust_tick, hlt] at hdone
          · refine waitIdle_after_submit_of_split
              (stardust_tick (some RootEvent.Frame) (some out) desc
                (Except.ok info) (Except.ok b)).1
              [Op.lockAcquire, Op.createCommandBufferBuilder,
               Op.createSemaphore Sema.wayAcquire, Op.createSemaphore Sema.wayRelease,
               Op.prepareNextImage, Op.acquireNextImage Sema.wayAcquire,
               Op.recordBlit, Op.buildCommandBuffer,
               Op.queueSubmit [Sema.remoteWait, Sema.wayAcquire]
                 [Sema.remoteRelease, Sema.wayRelease],
               Op.present [Sema.wayRelease] info.imageIndex]
              [Op.publishMaterial (published_submit_info desc),
               Op.requestDraw desc, Op.lockRelease]
              ?_ ?_ i w s hs
            · simp [stardust_tick, hlt, render_trace]
            · intro op hop
              simp at hop
              rcases hop with rfl | rfl | rfl | rfl <;> rfl
        · simp [stardust_tick, hlt] at hdone

/-- C4: at most one frame is ever in flight through the copy/submit path.  In
any run of the tick loop, between any queue submission and any strictly later
local image acquisition (the start of the next frame's copy path) there is a
blocking `wait_idle` on the queue: the submission callback blocks until the
GPU is idle before control returns to the tick loop, so no subsequent tick
begins acquisition while a previous frame's GPU work is still pending. -/
theorem c4_waitIdle_between_submit_and_next_acquire
    (l : List TickInput) (i j : Nat) (hij : i < j)
    (w s : List Sema) (a : Sema)
    (hs : (stardust_run l)[i]? = some (Op.queueSubmit w s))
    (ha : (stardust_run l)[j]? = some (Op.acquireNextImage a)) :
    ∃ k, i < k ∧ k < j ∧ (stardust_run l)[k]? = some Op.waitIdle := by
  induction l generalizing i j with
  | nil => simp [stardust_run] at hs
  | cons inp rest ih =>
    rcases he : (stardust_tick inp.ev inp.outputState inp.desc inp.acq inp.presentResult).2
      with _ | msg
    · rw [stardust_run, he] at hs ha ⊢
      by_cases hjt :
          j < (stardust_tick inp.ev inp.outputState inp.desc inp.acq inp.presentResult).1.length
      · have hit := lt_trans hij hjt
        rw [List.getElem?_append_left hjt] at ha
        rw [List.getElem?_append_left hit] at hs
        exact (tick_no_acquire_after_submit inp.ev inp.outputState
          inp.desc inp.acq inp.presentResult i j hij w s a hs ha).elim
      · push_neg at hjt
        rw [List.getElem?_append_right hjt] at ha
        by_cases hit :
            i < (stardust_tick inp.ev inp.outputState inp.desc inp.acq inp.presentResult).1.length
        · rw [List.getElem?_append_left hit] at hs
          obtain ⟨k, hik, hk⟩ := tick_waitIdle_after_submit inp.ev inp.outputState
            inp.desc inp.acq inp.presentResult he i w s hs
          have hkt := (List.getElem?_eq_some_iff.mp hk).1
          refine ⟨k, hik, lt_of_lt_of_le hkt hjt, ?_⟩
          rw [List.getElem?_append_left hkt]
          exact hk
        · push_neg at hit
          rw [List.getElem?_append_right hit] at hs
          obtain ⟨k, h1, h2, hk⟩ := ih (i - _) (j - _) (by omega) hs ha
          refine ⟨(stardust_tick inp.ev inp.outputState inp.desc inp.acq
            inp.presentResult).1.length + k, by omega, by omega, ?_⟩
          rw [List.getElem?_append_right (by omega)]
          simpa using hk
    · rw [stardust_run, he] at hs ha
      simp only [List.append_nil] at hs ha
      exact (tick_no_acquire_after_submit inp.ev inp.outputState
        inp.desc inp.acq inp.presentResult i j hij w s a hs ha).elim

/-- Inputs of a render tick that completes: a render event, a live `Output`,
a successful acquisition of image 0, a successful present. -/
def goodInput : TickInput :=
  { ev := some RootEvent.Frame
    outputState := some exampleOutput
    desc := exampleDesc
    acq := Except.ok { imageIndex := 0 }
    presentResult := Except.ok true }

/-- Witness for C4 at a concrete two-tick run: the first tick submits at
position 8, the second tick acquires at position 19, and a `wait_idle` lies
between them. -/
theorem c4_witness :
    ∃ k, 8 < k ∧ k < 19 ∧
      (stardust_run [goodInput, goodInput])[k]? = some Op.waitIdle :=
  c4_waitIdle_between_submit_and_next_acquire [goodInput, goodInput] 8 19 (by decide)
    [Sema.remoteWait, Sema.wayAcquire] [Sema.remoteRelease, Sema.wayRelease]
    Sema.wayAcquire (by decide) (by decide)

/-- C8: a Ping event is acknowledged immediately and the iteration performs no
image acquisition, no copy, no submission and no present: its only operation
is the acknowledgment, and no operation of the iteration touches GPU or
swapchain state. -/
theorem c8_ping_acknowledged_without_side_effects
    (outputState : Option Output) (desc : SubmitDescriptor)
    (acq : Except VkError AcquireInfo) (pres : Except VkError Bool) :
    stardust_tick (some RootEvent.Ping) outputState desc acq pres
      = ([Op.pingAck], none) ∧
    ∀ op ∈ (stardust_tick (some RootEvent.Ping) outputState desc acq pres).1,
      isGpuOp op = false := by
  refine ⟨rfl, ?_⟩
  intro op hop
  simp [stardust_tick] at hop
  subst hop
  rfl

/-- C9: a Render event arriving while no `Output` exists is skipped with no
error: the iteration only takes and releases the lock, touches no GPU
resource, and does not panic. -/
theorem c9_render_without_output_skips
    (desc : SubmitDescriptor) (acq : Except VkError AcquireInfo)
    (pres : Except VkError Bool) :
    stardust_tick (some RootEvent.Frame) none desc acq pres
      = ([Op.lockAcquire, Op.lockRelease], none) ∧
    ∀ op ∈ (stardust_tick (some RootEvent.Frame) none desc acq pres).1,
      isGpuOp op = false := by
  refine ⟨rfl, ?_⟩
  intro op hop
  simp [stardust_tick] at hop
  rcases hop with rfl | rfl <;> rfl

/-- C1 counterexample: at a concrete completed render tick whose
`SubmitDescriptor` has acquire point 1 and release point 2, the descriptor
published to the material has acquire point 2, which differs from the
submit descriptor's acquire point: the published acquire point does not equal
the descriptor's acquire point. -/
theorem c1_counterexample :
    publishedFirst (stardust_tick (some RootEvent.Frame) (some exampleOutput)
        exampleDesc (Except.ok { imageIndex := 0 }) (Except.ok true)).1
      = some { dmatex_id := 7, acquire_point := 2, release_point := 2 } ∧
    ¬ (2 : Nat) = exampleDesc.acquire_point := by
  constructor
  · rfl
  · decide

/-- C1 (amended): for every render tick that completes submission, the texture
descriptor published to the material carries the submit descriptor's id as its
id, the submit descriptor's release point as its acquire point, and the submit
descriptor's release point as its release point. -/
theorem c1_published_descriptor_fields
    (out : Output) (desc : SubmitDescriptor) (info : AcquireInfo) (b : Bool)
    (h : info.imageIndex < out.swapImages) :
    publishedFirst (stardust_tick (some RootEvent.Frame) (some out) desc
        (Except.ok info) (Except.ok b)).1
      = some { dmatex_id := desc.dmatex_id
               acquire_point := desc.release_point
               release_point := desc.release_point } := by
  simp [stardust_tick, h, render_trace, publishedFirst, published_submit_info]

/-- Witness for the amended C1 at a concrete input. -/
theorem c1_published_descriptor_fields_witness :
    publishedFirst (stardust_tick (some RootEvent.Frame) (some exampleOutput)
        exampleDesc (Except.ok { imageIndex := 0 }) (Except.ok true)).1
      = some { dmatex_id := exampleDesc.dmatex_id
               acquire_point := exampleDesc.release_point
               release_point := exampleDesc.release_point } :=
  c1_published_descriptor_fields exampleOutput exampleDesc { imageIndex := 0 } true
    (by decide)

/-- C10: for every render tick that completes, the published
`DmatexSubmitInfo` has equal acquire and release points (both are set from
the submission's release point), so a consumer can never observe distinct
acquire and release sync points. -/
theorem c10_published_points_equal
    (out : Output) (desc : SubmitDescriptor) (info : AcquireInfo) (b : Bool)
    (h : info.imageIndex < out.swapImages) :
    ∃ m, publishedFirst (stardust_tick (some RootEvent.Frame) (some out) desc
        (Except.ok info) (Except.ok b)).1 = some m ∧
      m.acquire_point = m.release_point := by
  refine ⟨published_submit_info desc, ?_, rfl⟩
  simp [stardust_tick, h, render_trace, publishedFirst]

/-- Witness for C10 at a concrete input. -/
theorem c10_published_points_equal_witness :
    ∃ m, publishedFirst (stardust_tick (some RootEvent.Frame) (some exampleOutput)
        exampleDesc (Except.ok { imageIndex := 0 }) (Except.ok true)).1 = some m ∧
      m.acquire_point = m.release_point :=
  c10_published_points_equal exampleOutput exampleDesc { imageIndex := 0 } true
    (by decide)

/-- A concrete app state holding an `Output` created for a 100x100 window. -/
def preResizeState : AppState :=
  { output := some { swapchainExtent := (100, 100), swapImages := 2,
                     cmeSize := DmatexSize.Dim2D (100, 100) }
    exited := false }

/-- C5 counterexample: a resize event to 800x600 leaves the app state, and in
particular the current `Output`, completely unchanged — the `Output` is not
invalidated or replaced, and its shared-texture request is still
Dim2D(100,100), not Dim2D(800,600). -/
theorem c5_counterexample :
    window_event preResizeState (WindowEvent.Resized (800, 600)) = preResizeState ∧
    preResizeState.output
      = some { swapchainExtent := (100, 100), swapImages := 2,
               cmeSize := DmatexSize.Dim2D (100, 100) } ∧
    ¬ DmatexSize.Dim2D ((100 : Nat), (100 : Nat)) = DmatexSize.Dim2D (800, 600) := by
  refine ⟨rfl, rfl, ?_⟩
  decide

/-- C5 (amended): a window resize event is ignored by `window_event` — the
current `Output` is neither invalidated nor replaced.  The `Output` is
replaced wholesale only by the platform resume handler, and the `Output` it
installs has its local-surface extent and its shared-texture request both
matching the current window size (a window size of `sz` yields a shared
texture request of Dim2D(sz)). -/
theorem c5_resize_ignored_output_replaced_on_resume
    (st : AppState) (sz : Nat × Nat) (n : Nat) :
    window_event st (WindowEvent.Resized sz) = st ∧
    (resumed st sz n).output
      = some { swapchainExtent := sz, swapImages := n,
               cmeSize := DmatexSize.Dim2D sz } :=
  ⟨rfl, rfl⟩

/-- C6 counterexample: at a concrete render tick where `acquire_next_image`
reports the surface out-of-date, the tick does not recover: the `unwrap`
panics (killing the tick-loop task), and the tick has already performed side
effects (the remote image preparation) by that point. -/
theorem c6_counterexample :
    (stardust_tick (some RootEvent.Frame) (some exampleOutput) exampleDesc
        (Except.error VkError.outOfDate) (Except.ok true)).2
      = some "panic: acquire_next_image returned Err and was unwrapped" ∧
    Op.prepareNextImage ∈ (stardust_tick (some RootEvent.Frame) (some exampleOutput)
        exampleDesc (Except.error VkError.outOfDate) (Except.ok true)).1 := by
  refine ⟨rfl, ?_⟩
  simp [stardust_tick]

/-- C6 (amended): an error (such as surface out-of-date) from the local image
acquisition is not a recoverable condition in this code: the result is
`unwrap`ped, so the tick-loop task panics; likewise an error surfaced to the
`unwrap` of the present call panics after submission.  Surface/Output
recreation happens only through the platform resume handler, which installs a
fresh `Output` sized to the current window. -/
theorem c6_out_of_date_panics
    (out : Output) (desc : SubmitDescriptor) (e : VkError)
    (pres : Except VkError Bool) (info : AcquireInfo)
    (st : AppState) (sz : Nat × Nat) (n : Nat)
    (h : info.imageIndex < out.swapImages) :
    (stardust_tick (some RootEvent.Frame) (some out) desc (Except.error e) pres).2
      = some "panic: acquire_next_image returned Err and was unwrapped" ∧
    (stardust_tick (some RootEvent.Frame) (some out) desc (Except.ok info)
        (Except.error e)).2
      = some "panic: present returned Err and was unwrapped" ∧
    (resumed st sz n).output
      = some { swapchainExtent := sz, swapImages := n,
               cmeSize := DmatexSize.Dim2D sz } := by
  refine ⟨rfl, ?_, rfl⟩
  simp [stardust_tick, h]

/-- Witness for the amended C6 at concrete inputs. -/
theorem c6_out_of_date_panics_witness :
    (stardust_tick (some RootEvent.Frame) (some exampleOutput) exampleDesc
        (Except.error VkError.outOfDate) (Except.ok true)).2
      = some "panic: acquire_next_image returned Err and was unwrapped" ∧
    (stardust_tick (some RootEvent.Frame) (some exampleOutput) exampleDesc
        (Except.ok { imageIndex := 0 }) (Except.error VkError.outOfDate)).2
      = some "panic: present returned Err and was unwrapped" ∧
    (resumed { output := none, exited := false } (800, 600) 3).output
      = some { swapchainExtent := (800, 600), swapImages := 3,
               cmeSize := DmatexSize.Dim2D (800, 600) } :=
  c6_out_of_date_panics exampleOutput exampleDesc VkError.outOfDate (Except.ok true)
    { imageIndex := 0 } { output := none, exited := false } (800, 600) 3 (by decide)

/-- C2: in every render tick that reaches submission, the single queue
submission waits exactly on the remote source image's ready semaphore and the
local acquire semaphore and signals exactly the remote release semaphore and
the bridge-owned copy-done semaphore (`way_release_sema`), and the only
present of the tick waits exactly on the copy-done semaphore — a wait set
that does not contain the acquire semaphore. -/
theorem c2_submission_and_present_sync_sets
    (out : Output) (desc : SubmitDescriptor) (info : AcquireInfo) (b : Bool)
    (h : info.imageIndex < out.swapImages) :
    ((stardust_tick (some RootEvent.Frame) (some out) desc (Except.ok info)
        (Except.ok b)).1.filter isSubmit)
      = [Op.queueSubmit [Sema.remoteWait, Sema.wayAcquire]
           [Sema.remoteRelease, Sema.wayRelease]] ∧
    ((stardust_tick (some RootEvent.Frame) (some out) desc (Except.ok info)
        (Except.ok b)).1.filter isPresent)
      = [Op.present [Sema.wayRelease] info.imageIndex] ∧
    Sema.wayAcquire ∉ [Sema.wayRelease] := by
  have ht : (stardust_tick (some RootEvent.Frame) (some out) desc (Except.ok info)
      (Except.ok b)).1 = render_trace desc info.imageIndex := by
    simp [stardust_tick, h]
  rw [ht]
  exact ⟨rfl, rfl, by decide⟩

/-- Witness for C2 at a concrete input. -/
theorem c2_submission_and_present_sync_sets_witness :
    ((stardust_tick (some RootEvent.Frame) (some exampleOutput) exampleDesc
        (Except.ok { imageIndex := 0 }) (Except.ok true)).1.filter isSubmit)
      = [Op.queueSubmit [Sema.remoteWait, Sema.wayAcquire]
           [Sema.remoteRelease, Sema.wayRelease]] ∧
    ((stardust_tick (some RootEvent.Frame) (some exampleOutput) exampleDesc
        (Except.ok { imageIndex := 0 }) (Except.ok true)).1.filter isPresent)
      = [Op.present [Sema.wayRelease] (0 : Nat)] ∧
    Sema.wayAcquire ∉ [Sema.wayRelease] :=
  c2_submission_and_present_sync_sets exampleOutput exampleDesc { imageIndex := 0 }
    true (by decide)

/-- C3: within every render tick that completes, the remote-image preparation,
the local image acquisition, the blit recording, the queue submission, the
present and the publication of the texture handoff occur at strictly
increasing positions of the tick's operation sequence. -/
theorem c3_render_tick_operation_order
    (out : Output) (desc : SubmitDescriptor) (info : AcquireInfo) (b : Bool)
    (h : info.imageIndex < out.swapImages) :
    ∃ i1 i2 i3 i4 i5 i6 : Nat,
      i1 < i2 ∧ i2 < i3 ∧ i3 < i4 ∧ i4 < i5 ∧ i5 < i6 ∧
      (stardust_tick (some RootEvent.Frame) (some out) desc (Except.ok info)
          (Except.ok b)).1[i1]? = some Op.prepareNextImage ∧
      (stardust_tick (some RootEvent.Frame) (some out) desc (Except.ok info)
          (Except.ok b)).1[i2]? = some (Op.acquireNextImage Sema.wayAcquire) ∧
      (stardust_tick (some RootEvent.Frame) (some out) desc (Except.ok info)
          (Except.ok b)).1[i3]? = some Op.recordBlit ∧
      (stardust_tick (some RootEvent.Frame) (some out) desc (Except.ok info)
          (Except.ok b)).1[i4]?
        = some (Op.queueSubmit [Sema.remoteWait, Sema.wayAcquire]
            [Sema.remoteRelease, Sema.wayRelease]) ∧
      (stardust_tick (some RootEvent.Frame) (some out) desc (Except.ok info)
          (Except.ok b)).1[i5]? = some (Op.present [Sema.wayRelease] info.imageIndex) ∧
      (stardust_tick (some RootEvent.Frame) (some out) desc (Except.ok info)
          (Except.ok b)).1[i6]? = some (Op.publishMaterial (published_submit_info desc)) := by
  have ht : (stardust_tick (some RootEvent.Frame) (some out) desc (Except.ok info)
      (Except.ok b)).1 = render_trace desc info.imageIndex := by
    simp [stardust_tick, h]
  rw [ht]
  exact ⟨4, 5, 6, 8, 9, 11, by omega, by omega, by omega, by omega, by omega,
    rfl, rfl, rfl, rfl, rfl, rfl⟩

/-- Witness for C3 at a concrete input. -/
theorem c3_render_tick_operation_order_witness :
    ∃ i1 i2 i3 i4 i5 i6 : Nat,
      i1 < i2 ∧ i2 < i3 ∧ i3 < i4 ∧ i4 < i5 ∧ i5 < i6 ∧
      (stardust_tick (some RootEvent.Frame) (some exampleOutput) exampleDesc
          (Except.ok { imageIndex := 0 }) (Except.ok true)).1[i1]?
        = some Op.prepareNextImage ∧
      (stardust_tick (some RootEvent.Frame) (some exampleOutput) exampleDesc
          (Except.ok { imageIndex := 0 }) (Except.ok true)).1[i2]?
        = some (Op.acquireNextImage Sema.wayAcquire) ∧
      (stardust_tick (some RootEvent.Frame) (some exampleOutput) exampleDesc
          (Except.ok { imageIndex := 0 }) (Except.ok true)).1[i3]?
        = some Op.recordBlit ∧
      (stardust_tick (some RootEvent.Frame) (some exampleOutput) exampleDesc
          (Except.ok { imageIndex := 0 }) (Except.ok true)).1[i4]?
        = some (Op.queueSubmit [Sema.remoteWait, Sema.wayAcquire]
            [Sema.remoteRelease, Sema.wayRelease]) ∧
      (stardust_tick (some RootEvent.Frame) (some exampleOutput) exampleDesc
          (Except.ok { imageIndex := 0 }) (Except.ok true)).1[i5]?
        = some (Op.present [Sema.wayRelease] (0 : Nat)) ∧
      (stardust_tick (some RootEvent.Frame) (some exampleOutput) exampleDesc
          (Except.ok { imageIndex := 0 }) (Except.ok true)).1[i6]?
        = some (Op.publishMaterial (published_submit_info exampleDesc)) :=
  c3_render_tick_operation_order exampleOutput exampleDesc { imageIndex := 0 } true
    (by decide)

/-- C7 counterexample: in a concrete completed render tick, the first 11
operations include the lock acquisition and the blocking `wait_idle` but no
lock release — the lock guard taken to read the `Output` is still held when
the blocking GPU wait (and the submission and present before it) is issued,
contradicting the claim that it is released before any blocking GPU call. -/
theorem c7_counterexample :
    Op.lockAcquire ∈ ((stardust_tick (some RootEvent.Frame) (some exampleOutput)
        exampleDesc (Except.ok { imageIndex := 0 }) (Except.ok true)).1.take 11) ∧
    Op.waitIdle ∈ ((stardust_tick (some RootEvent.Frame) (some exampleOutput)
        exampleDesc (Except.ok { imageIndex := 0 }) (Except.ok true)).1.take 11) ∧
    Op.lockRelease ∉ ((stardust_tick (some RootEvent.Frame) (some exampleOutput)
        exampleDesc (Except.ok { imageIndex := 0 }) (Except.ok true)).1.take 11) := by
  decide

/-- C7 (amended): the `Output` lock guard taken at the start of a render tick
is held for the whole tick and dropped only at its end: the lock acquisition
precedes the blocking `wait_idle`, the lock release follows it, no lock
release occurs earlier in the tick, and the release is the tick's final
operation. -/
theorem c7_lock_held_across_gpu_wait
    (out : Output) (desc : SubmitDescriptor) (info : AcquireInfo) (b : Bool)
    (h : info.imageIndex < out.swapImages) :
    ∃ i j k : Nat, i < j ∧ j < k ∧
      (stardust_tick (some RootEvent.Frame) (some out) desc (Except.ok info)
          (Except.ok b)).1[i]? = some Op.lockAcquire ∧
      (stardust_tick (some RootEvent.Frame) (some out) desc (Except.ok info)
          (Except.ok b)).1[j]? = some Op.waitIdle ∧
      (stardust_tick (some RootEvent.Frame) (some out) desc (Except.ok info)
          (Except.ok b)).1[k]? = some Op.lockRelease ∧
      Op.lockRelease ∉ ((stardust_tick (some RootEvent.Frame) (some out) desc
          (Except.ok info) (Except.ok b)).1.take k) ∧
      (stardust_tick (some RootEvent.Frame) (some out) desc (Except.ok info)
          (Except.ok b)).1.length = k + 1 := by
  have ht : (stardust_tick (some RootEvent.Frame) (some out) desc (Except.ok info)
      (Except.ok b)).1 = render_trace desc info.imageIndex := by
    simp [stardust_tick, h]
  rw [ht]
  refine ⟨0, 10, 13, by omega, by omega, rfl, rfl, rfl, ?_, rfl⟩
  simp [render_trace]

/-- Witness for the amended C7 at a concrete input. -/
theorem c7_lock_held_across_gpu_wait_witness :
    ∃ i j k : Nat, i < j ∧ j < k ∧
      (stardust_tick (some RootEvent.Frame) (some exampleOutput) exampleDesc
          (Except.ok { imageIndex := 0 }) (Except.ok true)).1[i]? = some Op.lockAcquire ∧
      (stardust_tick (some RootEvent.Frame) (some exampleOutput) exampleDesc
          (Except.ok { imageIndex := 0 }) (Except.ok true)).1[j]? = some Op.waitIdle ∧
      (stardust_tick (some RootEvent.Frame) (some exampleOutput) exampleDesc
          (Except.ok { imageIndex := 0 }) (Except.ok true)).1[k]? = some Op.lockRelease ∧
      Op.lockRelease ∉ ((stardust_tick (some RootEvent.Frame) (some exampleOutput)
          exampleDesc (Except.ok { imageIndex := 0 }) (Except.ok true)).1.take k) ∧
      (stardust_tick (some RootEvent.Frame) (some exampleOutput) exampleDesc
          (Except.ok { imageIndex := 0 }) (Except.ok true)).1.length = k + 1 :=
  c7_lock_held_across_gpu_wait exampleOutput exampleDesc { imageIndex := 0 } true
    (by decide)
